import Mathlib

/-!
Verification of the AI Mental Health API (src/ai-api/app.py).

The embedding models the two pieces of the service:
* `get_personalized_recommendation`, the pure decision table mapping
  (sentiment label, confidence, raw text) to a message and a list of tips;
* `predict`, the `/predict` request handler, with the analyzer as an
  optional function parameter and the JSON body as an optional
  association list of string fields.

Confidence scores are modelled as rationals; Python string truthiness,
`.strip()`, `.lower()` and substring membership are modelled explicitly.
-/

namespace AiApi

/-- Does the first character list occur at the start of the second?
(Models the base step of Python's `in` substring test.) -/
def startsWithL : List Char → List Char → Bool
  | [], _ => true
  | _ :: _, [] => false
  | a :: as, b :: bs => a == b && startsWithL as bs

/-- Substring containment on character lists: models Python's
`needle in hay` for strings.  The empty needle is contained in every
string, as in Python. -/
def containsL (needle : List Char) : List Char → Bool
  | [] => startsWithL needle []
  | hay@(_ :: rest) => startsWithL needle hay || containsL needle rest

/-- Models Python's `text.lower()`, character by character. -/
def lowerL (s : String) : List Char :=
  s.toList.map Char.toLower

/-- Models `any(word in text_lower for word in words)` from the source. -/
def hasAnyKeyword (words : List String) (text_lower : List Char) : Bool :=
  words.any (fun w => containsL w.toList text_lower)

/-- The dictionary returned by `get_personalized_recommendation`:
a message and a list of tips. -/
structure Recommendation where
  message : String
  tips : List String
deriving DecidableEq, Repr

/-- Tips of the high-confidence POSITIVE branch (app.py lines 109-114). -/
def posHighTips : List String :=
  ["🎵 Listen to your favorite uplifting music",
   "📞 Share this positive energy with a friend",
   "📝 Write down what made you feel good today",
   "🌱 Use this momentum for a creative project"]

/-- Tips of the lower-confidence POSITIVE branch (app.py lines 117-122). -/
def posLowTips : List String :=
  ["🚶‍♀️ Take a pleasant walk outside",
   "📖 Read something inspiring",
   "🧘‍♀️ Practice gratitude meditation",
   "💪 Try a fun physical activity"]

/-- Tips of the anxiety branch (app.py lines 128-133). -/
def anxietyTips : List String :=
  ["🫁 Try deep breathing exercises (4-7-8 technique)",
   "🧘‍♀️ Practice a 5-minute mindfulness meditation",
   "📱 Use a calming app like Headspace or Calm",
   "☎️ Consider talking to a trusted friend or counselor"]

/-- Tips of the tough-time branch (app.py lines 136-141). -/
def toughTimeTips : List String :=
  ["🌅 Try to get some natural sunlight",
   "🎨 Express yourself through art, writing, or music",
   "🏃‍♀️ Light exercise can help boost mood",
   "🤗 Reach out to someone who cares about you"]

/-- Tips of the frustration branch (app.py lines 144-149). -/
def frustrationTips : List String :=
  ["💨 Take 10 deep breaths before reacting",
   "🏋️‍♀️ Try physical exercise to release tension",
   "📝 Write down your feelings in a journal",
   "🎯 Focus on what you can control in the situation"]

/-- Tips of the default NEGATIVE branch (app.py lines 152-157). -/
def negDefaultTips : List String :=
  ["🛁 Take a warm bath or shower",
   "📚 Read a comforting book or watch a feel-good movie",
   "🍵 Make yourself a warm drink",
   "💬 Consider talking to a mental health professional"]

/-- Tips of the NEUTRAL/unknown branch (app.py lines 161-166). -/
def neutralTips : List String :=
  ["📓 Try journaling to explore your thoughts",
   "🚶‍♀️ Take a mindful walk to clear your head",
   "🎵 Listen to music that resonates with your mood",
   "🧘‍♀️ Try a brief meditation or breathing exercise"]

/-- Keyword list of the anxiety check (app.py line 126). -/
def anxietyKeywords : List String := ["anxious", "anxiety", "worried", "stress"]

/-- Keyword list of the sadness check (app.py line 134). -/
def sadnessKeywords : List String := ["sad", "depressed", "down", "upset"]

/-- Keyword list of the anger check (app.py line 142). -/
def angerKeywords : List String := ["angry", "mad", "frustrated", "irritated"]

/-- `get_personalized_recommendation` from app.py lines 100-171: a nested
decision table on (sentiment, confidence, lowercased text). -/
def get_personalized_recommendation (sentiment : String) (confidence : ℚ)
    (text : String) : Recommendation :=
  let text_lower := lowerL text
  if sentiment = "POSITIVE" then
    if confidence > 9/10 then
      ⟨"🌟 You're radiating positive energy! This is wonderful to see.",
       posHighTips⟩
    else
      ⟨"😊 You seem to be feeling good! Let's build on these positive vibes.",
       posLowTips⟩
  else if sentiment = "NEGATIVE" then
    if hasAnyKeyword anxietyKeywords text_lower then
      ⟨"😌 I understand you're feeling anxious. Remember, this feeling will pass.",
       anxietyTips⟩
    else if hasAnyKeyword sadnessKeywords text_lower then
      ⟨"💙 I hear that you're going through a tough time. Your feelings are valid.",
       toughTimeTips⟩
    else if hasAnyKeyword angerKeywords text_lower then
      ⟨"😤 It sounds like you're feeling frustrated. Let's work on channeling this energy.",
       frustrationTips⟩
    else
      ⟨"💭 I sense you might be going through something difficult. Remember, it's okay to not be okay.",
       negDefaultTips⟩
  else
    ⟨"🤔 Your feelings seem mixed right now, which is completely normal.",
     neutralTips⟩

/-- A JSON value occurring in a response body of this service:
a string, a number, or an array of strings. -/
inductive JVal where
  | str (s : String)
  | num (q : ℚ)
  | arr (l : List String)
deriving DecidableEq, Repr

/-- An HTTP response: status code and JSON object body, as the ordered
list of fields `jsonify` serializes. -/
structure HttpResponse where
  code : Nat
  body : List (String × JVal)
deriving DecidableEq, Repr

/-- The sentiment pipeline, abstracted as in the spec: an opaque function
from text to a (label, confidence) pair, `result[0]['label']` and
`result[0]['score']` of app.py lines 74-75. -/
def Analyzer : Type := String → String × ℚ

/-- Outcome of one call to `predict`: the response sent, and whether the
sentiment analyzer was invoked on the way. -/
structure PredictResult where
  resp : HttpResponse
  analyzerCalled : Bool
deriving DecidableEq, Repr

/-- The error body `jsonify({"error": msg, "status": "error"})` used by
every error return of `predict`. -/
def errBody (msg : String) : List (String × JVal) :=
  [("error", JVal.str msg), ("status", JVal.str "error")]

/-- Python truthiness of the parsed JSON body at `if not data:`
(app.py line 45): `None` and the empty object are falsy. -/
def jsonTruthy : Option (List (String × String)) → Bool
  | none => false
  | some l => !l.isEmpty

/-- Drop leading whitespace characters from a character list. -/
def dropLeadingWs : List Char → List Char
  | [] => []
  | c :: cs => if c.isWhitespace then dropLeadingWs cs else c :: cs

/-- Models Python's `str.strip()`: remove leading and trailing
whitespace. -/
def pyStrip (s : String) : String :=
  ⟨(dropLeadingWs ((dropLeadingWs s.toList).reverse)).reverse⟩

/-- `data.get('text', '').strip()` from app.py line 51. -/
def getTextField (data : List (String × String)) : String :=
  pyStrip ((data.lookup "text").getD "")

/-- The `/predict` handler (app.py lines 34-98).  The request is its
method and parsed JSON body (an association list of string fields, or
`none` for a body that parsed to `None`); the module-level
`sentiment_analyzer` is a parameter, `none` when model loading failed. -/
def predict (method : String) (sentiment_analyzer : Option Analyzer)
    (data : Option (List (String × String))) : PredictResult :=
  if method = "OPTIONS" then
    ⟨⟨200, [("status", JVal.str "OK")]⟩, false⟩
  else if jsonTruthy data = false then
    ⟨⟨400, errBody "No JSON data provided"⟩, false⟩
  else
    let text := getTextField (data.getD [])
    if text = "" then
      ⟨⟨400, errBody "No text provided or text is empty"⟩, false⟩
    else if text.length > 1000 then
      ⟨⟨400, errBody "Text too long. Please keep it under 1000 characters."⟩, false⟩
    else
      match sentiment_analyzer with
      | none =>
        ⟨⟨500, errBody "Sentiment analysis model not available"⟩, false⟩
      | some f =>
        let sentiment := (f text).1
        let score := (f text).2
        let recommendations := get_personalized_recommendation sentiment score text
        ⟨⟨200, [("sentiment", JVal.str sentiment),
                ("recommendation", JVal.str recommendations.message),
                ("confidence_score", JVal.num score),
                ("additional_tips", JVal.arr recommendations.tips),
                ("status", JVal.str "success")]⟩, true⟩

/-- C1: for sentiment label POSITIVE, `get_personalized_recommendation`
selects by confidence alone: strictly above 0.9 it returns the
high-energy message with its four tips, otherwise the positive-vibes
message with its four tips. -/
theorem C1_positive_selected_by_confidence (confidence : ℚ) (text : String) :
    get_personalized_recommendation "POSITIVE" confidence text =
      (if confidence > 9/10 then
        ⟨"🌟 You're radiating positive energy! This is wonderful to see.",
         posHighTips⟩
      else
        ⟨"😊 You seem to be feeling good! Let's build on these positive vibes.",
         posLowTips⟩ : Recommendation) ∧
    posHighTips.length = 4 ∧ posLowTips.length = 4 := by
  refine ⟨?_, by decide, by decide⟩
  by_cases h : confidence > 9/10 <;> simp [get_personalized_recommendation, h]

/-- C2: for sentiment label NEGATIVE, the message and tips are selected
by case-insensitive substring keyword checks on the text, in nested
order: anxiety keywords first, then sadness, then anger, else the
default difficult-time message. -/
theorem C2_negative_keyword_nesting (confidence : ℚ) (text : String) :
    get_personalized_recommendation "NEGATIVE" confidence text =
      (if hasAnyKeyword anxietyKeywords (lowerL text) then
        ⟨"😌 I understand you're feeling anxious. Remember, this feeling will pass.",
         anxietyTips⟩
      else if hasAnyKeyword sadnessKeywords (lowerL text) then
        ⟨"💙 I hear that you're going through a tough time. Your feelings are valid.",
         toughTimeTips⟩
      else if hasAnyKeyword angerKeywords (lowerL text) then
        ⟨"😤 It sounds like you're feeling frustrated. Let's work on channeling this energy.",
         frustrationTips⟩
      else
        ⟨"💭 I sense you might be going through something difficult. Remember, it's okay to not be okay.",
         negDefaultTips⟩ : Recommendation) := by
  simp [get_personalized_recommendation]

/-- C5: `get_personalized_recommendation` is total with a fixed result
shape: for every label (including ones other than POSITIVE and
NEGATIVE), confidence and text, the message is non-empty and the tips
list has exactly 4 entries. -/
theorem C5_total_fixed_shape (sentiment : String) (confidence : ℚ) (text : String) :
    (get_personalized_recommendation sentiment confidence text).message ≠ "" ∧
    (get_personalized_recommendation sentiment confidence text).tips.length = 4 := by
  unfold get_personalized_recommendation
  dsimp only
  constructor <;>
  · repeat' split
    all_goals decide

/-- C6: the recommendation selector is deterministic: equal arguments
give equal results (in this embedding it is a pure function of its
three arguments). -/
theorem C6_pure_deterministic (s1 s2 : String) (c1 c2 : ℚ) (t1 t2 : String)
    (hs : s1 = s2) (hc : c1 = c2) (ht : t1 = t2) :
    get_personalized_recommendation s1 c1 t1 =
      get_personalized_recommendation s2 c2 t2 := by
  subst hs; subst hc; subst ht; rfl

/-- Witness for C6 at a concrete repeated call. -/
theorem C6_pure_deterministic_witness :
    get_personalized_recommendation "NEGATIVE" (3/4) "feeling sad" =
      get_personalized_recommendation "NEGATIVE" (3/4) "feeling sad" :=
  C6_pure_deterministic "NEGATIVE" "NEGATIVE" (3/4) (3/4)
    "feeling sad" "feeling sad" rfl rfl rfl

/-- C8: for sentiment POSITIVE the output does not depend on the text:
any two texts give identical message and tips at every confidence. -/
theorem C8_positive_ignores_text (confidence : ℚ) (t1 t2 : String) :
    get_personalized_recommendation "POSITIVE" confidence t1 =
      get_personalized_recommendation "POSITIVE" confidence t2 := by
  simp [get_personalized_recommendation]

/-- C9: the high-confidence positive threshold is strict: at confidence
exactly 0.9 the lower-confidence positive-vibes message is returned. -/
theorem C9_positive_threshold_strict (text : String) :
    get_personalized_recommendation "POSITIVE" (9/10) text =
      ⟨"😊 You seem to be feeling good! Let's build on these positive vibes.",
       posLowTips⟩ := by
  norm_num [get_personalized_recommendation]

/-- C3 counterexample: a POST whose JSON body is the empty object has no
field named text, yet `predict` answers 400 with error
"No JSON data provided", not the claimed
"No text provided or text is empty" — even with a working analyzer. -/
theorem C3_counterexample_empty_object :
    (predict "POST" (some (fun _ => ("POSITIVE", 1))) (some [])).resp =
      ⟨400, errBody "No JSON data provided"⟩ ∧
    errBody "No JSON data provided" ≠ errBody "No text provided or text is empty" := by
  exact ⟨rfl, by decide⟩

/-- C3 (amended): validation precedes inference.  A falsy JSON body
(absent or the empty object) yields 400 "No JSON data provided"; a
truthy body whose text field strips to the empty string yields 400
"No text provided or text is empty"; a text longer than 1000 characters
yields 400 "Text too long. Please keep it under 1000 characters."; in
all three cases the sentiment analyzer is never invoked, whatever its
state. -/
theorem C3_validation_before_inference (a : Option Analyzer)
    (data : Option (List (String × String))) :
    (jsonTruthy data = false →
      predict "POST" a data = ⟨⟨400, errBody "No JSON data provided"⟩, false⟩) ∧
    (jsonTruthy data = true → getTextField (data.getD []) = "" →
      predict "POST" a data =
        ⟨⟨400, errBody "No text provided or text is empty"⟩, false⟩) ∧
    (jsonTruthy data = true → (getTextField (data.getD [])).length > 1000 →
      predict "POST" a data =
        ⟨⟨400, errBody "Text too long. Please keep it under 1000 characters."⟩, false⟩) := by
  refine ⟨fun h1 => ?_, fun h1 h2 => ?_, fun h1 h2 => ?_⟩
  · simp [predict, h1]
  · simp [predict, h1, h2]
  · have hne : getTextField (data.getD []) ≠ "" := by
      intro he
      rw [he] at h2
      simp at h2
    simp [predict, h1, hne, h2]

/-- Witness for C3 (amended): a whitespace-only text is rejected with
the emptiness error and the analyzer is not called. -/
theorem C3_validation_before_inference_witness :
    predict "POST" (some (fun _ => ("POSITIVE", 1))) (some [("text", "   ")]) =
      ⟨⟨400, errBody "No text provided or text is empty"⟩, false⟩ :=
  (C3_validation_before_inference (some (fun _ => ("POSITIVE", 1)))
    (some [("text", "   ")])).2.1 rfl (by decide)

/-- C4: when the analyzer is `none` (model failed to initialize), every
request passing presence and length validation gets the fixed 500
response with error "Sentiment analysis model not available" and
status error. -/
theorem C4_model_unavailable_fixed_error (data : Option (List (String × String)))
    (h1 : jsonTruthy data = true)
    (h2 : getTextField (data.getD []) ≠ "")
    (h3 : (getTextField (data.getD [])).length ≤ 1000) :
    predict "POST" none data =
      ⟨⟨500, errBody "Sentiment analysis model not available"⟩, false⟩ := by
  have h3' : ¬ (getTextField (data.getD [])).length > 1000 := Nat.not_lt.mpr h3
  simp [predict, h1, h2, h3']

/-- Witness for C4 at a concrete valid request. -/
theorem C4_model_unavailable_fixed_error_witness :
    predict "POST" none (some [("text", "I feel fine")]) =
      ⟨⟨500, errBody "Sentiment analysis model not available"⟩, false⟩ :=
  C4_model_unavailable_fixed_error (some [("text", "I feel fine")])
    rfl (by decide) (by decide)

/-- C7: on a successful prediction the response holds exactly the fields
sentiment, recommendation, confidence_score, additional_tips and
status, where sentiment and confidence_score come from the analyzer on
the submitted (stripped) text, recommendation and additional_tips from
`get_personalized_recommendation` on that (label, score, text), and
status is success. -/
theorem C7_success_response_fields (f : Analyzer)
    (data : Option (List (String × String)))
    (h1 : jsonTruthy data = true)
    (h2 : getTextField (data.getD []) ≠ "")
    (h3 : (getTextField (data.getD [])).length ≤ 1000) :
    predict "POST" (some f) data =
      ⟨⟨200,
        [("sentiment", JVal.str (f (getTextField (data.getD []))).1),
         ("recommendation", JVal.str (get_personalized_recommendation
            (f (getTextField (data.getD []))).1
            (f (getTextField (data.getD []))).2
            (getTextField (data.getD []))).message),
         ("confidence_score", JVal.num (f (getTextField (data.getD []))).2),
         ("additional_tips", JVal.arr (get_personalized_recommendation
            (f (getTextField (data.getD []))).1
            (f (getTextField (data.getD []))).2
            (getTextField (data.getD []))).tips),
         ("status", JVal.str "success")]⟩, true⟩ := by
  have h3' : ¬ (getTextField (data.getD [])).length > 1000 := Nat.not_lt.mpr h3
  simp [predict, h1, h2, h3']

/-- Witness for C7: a concrete high-confidence positive prediction. -/
theorem C7_success_response_fields_witness :
    predict "POST" (some (fun _ => ("POSITIVE", (19 : ℚ)/20)))
        (some [("text", "great day")]) =
      ⟨⟨200,
        [("sentiment", JVal.str "POSITIVE"),
         ("recommendation",
          JVal.str "🌟 You're radiating positive energy! This is wonderful to see."),
         ("confidence_score", JVal.num (19/20)),
         ("additional_tips", JVal.arr posHighTips),
         ("status", JVal.str "success")]⟩, true⟩ := by
  have hrec : get_personalized_recommendation "POSITIVE" ((19 : ℚ)/20) "great day" =
      ⟨"🌟 You're radiating positive energy! This is wonderful to see.",
       posHighTips⟩ := by
    norm_num [get_personalized_recommendation]
  have h := C7_success_response_fields (fun _ => ("POSITIVE", (19 : ℚ)/20))
    (some [("text", "great day")]) rfl (by decide) (by decide)
  have ht : getTextField ((some [("text", "great day")]).getD []) = "great day" := rfl
  rw [h, ht]
  simp [hrec]

/-- C10: input validation precedes the model-availability check: with
the analyzer `none`, any request with falsy body, empty-after-strip
text or over-length text still gets a 400, never the 500
model-unavailable response. -/
theorem C10_validation_precedes_model_check (data : Option (List (String × String)))
    (h : jsonTruthy data = false ∨ getTextField (data.getD []) = "" ∨
         (getTextField (data.getD [])).length > 1000) :
    (predict "POST" none data).resp.code = 400 ∧
    (predict "POST" none data).resp ≠
      ⟨500, errBody "Sentiment analysis model not available"⟩ := by
  have hcode : (predict "POST" none data).resp.code = 400 := by
    by_cases hj : jsonTruthy data = false
    · simp [predict, hj]
    · have hj' : jsonTruthy data = true := by
        revert hj; cases jsonTruthy data <;> simp
      rcases h with h | h | h
      · exact absurd h hj
      · simp [predict, hj', h]
      · have hne : getTextField (data.getD []) ≠ "" := by
          intro he
          rw [he] at h
          simp at h
        simp [predict, hj', hne, h]
  refine ⟨hcode, fun hresp => ?_⟩
  rw [hresp] at hcode
  exact absurd hcode (by decide)

/-- Witness for C10: whitespace-only text with the analyzer absent. -/
theorem C10_validation_precedes_model_check_witness :
    (predict "POST" none (some [("text", "  ")])).resp.code = 400 ∧
    (predict "POST" none (some [("text", "  ")])).resp ≠
      ⟨500, errBody "Sentiment analysis model not available"⟩ :=
  C10_validation_precedes_model_check (some [("text", "  ")])
    (Or.inr (Or.inl (by decide)))

end AiApi
